import Mathlib

/-!
# Verification of the hybrid sharded-store microbenchmark

A shallow embedding of the `HybridDataStructure` class from `src/חדש.py`
(sharded dicts guarded by per-shard locks, one global counter guarded by a
global lock, and embedded metrics counters), together with the workload-level
operations the benchmark driver issues.

Modelling choices:
* The Python class runs every critical section under a mutex; executed to
  completion, a workload is a sequence of whole operations, so the model is a
  sequential state machine over the fields of the class.  The mutexes
  themselves (`local_locks`, `global_lock`) carry no data and are not fields
  of the model.
* Python's ambient `hash` is injected as a field `hashFn : String → Int` of
  the store, fixed at construction, matching `hash(key) % self.num_shards`
  (Python's `%` on a positive modulus agrees with Lean's `Int.emod`).
* Each shard's dict is an association list with unique keys by construction;
  `dict_get`/`dict_set` model `d.get(key, default)` and `d[key] = v`.
* Wall-clock lock-wait measurement (`time.perf_counter`) is abstracted: the
  operations that measure a wait (`local_write`, `critical_update`) take the
  measured wait as an explicit `Nat` argument and add it to `lock_wait_time`,
  exactly where the source adds `lock_time`.
-/

set_option autoImplicit false

/-- `d.get(key, none)` on a Python dict modelled as an association list:
the value at the first matching key, if any. -/
def dict_get (d : List (String × Int)) (k : String) : Option Int :=
  match d with
  | [] => none
  | (k₁, v₁) :: rest => if k₁ = k then some v₁ else dict_get rest k

/-- `d[key] = v` on a Python dict modelled as an association list: replace the
value at the first matching key, or append a new entry (Python dicts keep
insertion order and append new keys at the end). -/
def dict_set (d : List (String × Int)) (k : String) (v : Int) : List (String × Int) :=
  match d with
  | [] => [(k, v)]
  | (k₁, v₁) :: rest => if k₁ = k then (k, v) :: rest else (k₁, v₁) :: dict_set rest k v

/-- Sum of all values stored in one shard's dict (`sum(shard.values())`). -/
def dict_sum (d : List (String × Int)) : Int :=
  (d.map Prod.snd).sum

/-- The state of one `HybridDataStructure` instance (`src/חדש.py`, lines 8–17):
`num_shards`, the per-shard dicts `local_data`, the `global_counter`, and the
metrics counters.  `hashFn` models Python's ambient `hash` on keys, fixed for
the store's lifetime. -/
structure HybridDataStructure where
  num_shards : Nat
  hashFn : String → Int
  local_data : List (List (String × Int))
  global_counter : Int
  local_reads : Nat
  local_writes : Nat
  lock_wait_time : Nat
  write_conflicts : Nat

namespace HybridDataStructure

/-- `__init__(self, num_shards)`: `num_shards` empty dicts, all counters zero. -/
def init (n : Nat) (h : String → Int) : HybridDataStructure :=
  { num_shards := n
    hashFn := h
    local_data := List.replicate n []
    global_counter := 0
    local_reads := 0
    local_writes := 0
    lock_wait_time := 0
    write_conflicts := 0 }

/-- `_get_shard_index(self, key)`: `hash(key) % self.num_shards`.  Python's
`%` with a positive right operand returns a value in `[0, num_shards)` even
for a negative hash, which is `Int.emod`, the `%` of `Int`. -/
def get_shard_index (s : HybridDataStructure) (key : String) : Nat :=
  ((s.hashFn key) % (s.num_shards : Int)).toNat

/-- The dict of the shard `key` lives in. -/
def shard_of (s : HybridDataStructure) (key : String) : List (String × Int) :=
  s.local_data.getD (s.get_shard_index key) []

/-- `local_write(self, key, value)` (`src/חדש.py`, lines 22–34), with the
measured lock wait `w` passed in: add `w` to `lock_wait_time`; if `key` is
already in its shard, count a write conflict; set
`local_data[shard][key] = local_data[shard].get(key, 0) + value`; increment
`local_writes`. -/
def local_write (s : HybridDataStructure) (key : String) (value : Int) (w : Nat) :
    HybridDataStructure :=
  let i := s.get_shard_index key
  let shard := s.local_data.getD i []
  { s with
    lock_wait_time := s.lock_wait_time + w
    write_conflicts :=
      if (dict_get shard key).isSome then s.write_conflicts + 1 else s.write_conflicts
    local_data := s.local_data.set i (dict_set shard key ((dict_get shard key).getD 0 + value))
    local_writes := s.local_writes + 1 }

/-- `local_read(self, key)` (`src/חדש.py`, lines 38–45): increment
`local_reads` and return `local_data[shard].get(key, None)` — `none` when the
key is absent — together with the updated state. -/
def local_read (s : HybridDataStructure) (key : String) :
    Option Int × HybridDataStructure :=
  (dict_get (s.shard_of key) key, { s with local_reads := s.local_reads + 1 })

/-- `critical_update(self, increment)` (`src/חדש.py`, lines 47–55), with the
measured lock wait `w` passed in: add `w` to `lock_wait_time` and add
`increment` to `global_counter`. -/
def critical_update (s : HybridDataStructure) (increment : Int) (w : Nat) :
    HybridDataStructure :=
  { s with
    lock_wait_time := s.lock_wait_time + w
    global_counter := s.global_counter + increment }

/-- `hybrid_operation(self, key, value)` (`src/חדש.py`, lines 57–59):
`local_write(key, value)` then `critical_update(increment=value)`, each its
own critical section with its own measured wait. -/
def hybrid_operation (s : HybridDataStructure) (key : String) (value : Int)
    (w₁ w₂ : Nat) : HybridDataStructure :=
  (s.local_write key value w₁).critical_update value w₂

/-- `sum(sum(shard.values()) for shard in hybrid_obj.local_data)`
(`src/חדש.py`, line 107). -/
def total_local_sum (s : HybridDataStructure) : Int :=
  (s.local_data.map dict_sum).sum

/-- `difference = hybrid_obj.global_counter - total_local_sum`
(`src/חדש.py`, line 108): the consistency gap. -/
def consistency_gap (s : HybridDataStructure) : Int :=
  s.global_counter - s.total_local_sum

end HybridDataStructure

/-- One operation of the workload the driver can issue against the store:
a local write, a local read, a critical update, or a hybrid operation.  The
`Nat` arguments are the measured lock waits of the critical sections. -/
inductive Op where
  | write (key : String) (value : Int) (w : Nat)
  | read (key : String)
  | critical (increment : Int) (w : Nat)
  | hybrid (key : String) (value : Int) (w₁ w₂ : Nat)

/-- Execute one operation (the dispatch in `worker`, `src/חדש.py`, lines 72–80),
discarding the value a read returns. -/
def Op.step (s : HybridDataStructure) (op : Op) : HybridDataStructure :=
  match op with
  | .write key value w => s.local_write key value w
  | .read key => (s.local_read key).2
  | .critical increment w => s.critical_update increment w
  | .hybrid key value w₁ w₂ => s.hybrid_operation key value w₁ w₂

/-- Execute a whole workload sequentially (all calls run to completion). -/
def Op.exec (s : HybridDataStructure) (ops : List Op) : HybridDataStructure :=
  ops.foldl Op.step s

/-- An operation of the consistency workload of claim C1: only hybrid
operations and critical updates. -/
def Op.isHybridOrCritical : Op → Bool
  | .critical _ _ => true
  | .hybrid _ _ _ _ => true
  | _ => false

/-- The sum of the increments passed to the standalone `critical_update`
calls of a workload. -/
def Op.criticalSum : List Op → Int
  | [] => 0
  | .critical increment _ :: rest => increment + criticalSum rest
  | _ :: rest => criticalSum rest

/-- The contribution of one operation to the sum of standalone critical
increments. -/
def Op.criticalOf : Op → Int
  | .critical increment _ => increment
  | _ => 0

/-- Whether the write performed by this operation (standalone or the one
inside a hybrid operation) finds its key already present in its shard when it
runs against state `s` — the event `local_write` counts as a write conflict. -/
def Op.conflictOf (s : HybridDataStructure) : Op → Nat
  | .write key _ _ => if (dict_get (s.shard_of key) key).isSome then 1 else 0
  | .hybrid key _ _ _ => if (dict_get (s.shard_of key) key).isSome then 1 else 0
  | _ => 0

/-- The number of writes in a workload whose key already existed in its shard
at the moment the write ran, starting from state `s`. -/
def Op.conflictCount : HybridDataStructure → List Op → Nat
  | _, [] => 0
  | s, op :: rest => Op.conflictOf s op + Op.conflictCount (Op.step s op) rest

/-- A sequence of `local_write` calls to one key `k`; each element of `vs` is
a written value paired with the measured lock wait of that call. -/
def writeAll (s : HybridDataStructure) (k : String) (vs : List (Int × Nat)) :
    HybridDataStructure :=
  vs.foldl (fun t p => t.local_write k p.1 p.2) s

/-- The spec's description of `hybridOperation` (§4.3): "calls
`write(key, value)` then `update(value)`, sequentially, each as its own
independent critical section". -/
def hybridOperation_spec (s : HybridDataStructure) (key : String) (value : Int)
    (w₁ w₂ : Nat) : HybridDataStructure :=
  let s₁ := s.local_write key value w₁
  s₁.critical_update value w₂

/-- A hash function that is constantly `0` (a stand-in for Python's `hash`
in concrete scenarios). -/
def h0 : String → Int := fun _ => 0

/-- A hash function that is constantly `-3`: Python's `hash` of a string can
be negative, and `%` must still produce an in-range shard index. -/
def hneg : String → Int := fun _ => -3

/-- Run a list of sub-steps of a critical section in order. -/
def runSteps : List (HybridDataStructure → HybridDataStructure) →
    HybridDataStructure → HybridDataStructure
  | [], s => s
  | f :: fs, s => runSteps fs (f s)

/-- The atomic sub-steps of `local_write`'s critical section
(`src/חדש.py`, lines 27–34), in program order: add the measured wait to
`lock_wait_time`; count a conflict if the key is present; write the
accumulated value into the shard dict; increment `local_writes`.  Each step
reads the current state, as the interpreter does. -/
def local_write_steps (key : String) (value : Int) (w : Nat) :
    List (HybridDataStructure → HybridDataStructure) :=
  [ fun s => { s with lock_wait_time := s.lock_wait_time + w }
  , fun s =>
      if (dict_get (s.shard_of key) key).isSome then
        { s with write_conflicts := s.write_conflicts + 1 }
      else s
  , fun s =>
      { s with
        local_data := s.local_data.set (s.get_shard_index key)
          (dict_set (s.shard_of key) key ((dict_get (s.shard_of key) key).getD 0 + value)) }
  , fun s => { s with local_writes := s.local_writes + 1 } ]

/-- The atomic sub-steps of `critical_update`'s critical section
(`src/חדש.py`, lines 51–53): add the measured wait; add the increment. -/
def critical_update_steps (increment : Int) (w : Nat) :
    List (HybridDataStructure → HybridDataStructure) :=
  [ fun s => { s with lock_wait_time := s.lock_wait_time + w }
  , fun s => { s with global_counter := s.global_counter + increment } ]

/-- The `try:` body of a critical section under fault injection.  `fault =
some f` with `f` smaller than the number of sub-steps means an exception is
raised after the first `f` sub-steps completed: the mutations already made to
the shared object persist, and the exception (second component) leaves the
`with` block — which releases the mutex — to be handled by the enclosing
`except`.  Otherwise the body runs to completion with no exception. -/
def tryBody (steps : List (HybridDataStructure → HybridDataStructure))
    (fault : Option Nat) (s : HybridDataStructure) :
    HybridDataStructure × Option String :=
  match fault with
  | none => (runSteps steps s, none)
  | some f =>
      if f < steps.length then (runSteps (steps.take f) s, some "exception")
      else (runSteps steps s, none)

/-- `local_write` with its `try/except` (`src/חדש.py`, lines 25–36) under
fault injection: the `except Exception` clause catches any exception from the
critical section, prints it, and returns normally.  A second component of
`some e` would mean an exception propagated to the caller. -/
def local_write_catching (s : HybridDataStructure) (key : String) (value : Int)
    (w : Nat) (fault : Option Nat) : HybridDataStructure × Option String :=
  let r := tryBody (local_write_steps key value w) fault s
  (r.1, none)

/-- `critical_update` with its `try/except` (`src/חדש.py`, lines 49–55) under
fault injection, like `local_write_catching`. -/
def critical_update_catching (s : HybridDataStructure) (increment : Int)
    (w : Nat) (fault : Option Nat) : HybridDataStructure × Option String :=
  let r := tryBody (critical_update_steps increment w) fault s
  (r.1, none)

/-- The atomic mutating sub-steps of `local_read`'s critical section
(`src/חדש.py`, lines 41–43): increment `local_reads`.  The subsequent
`return` reads the shard dict without mutating state. -/
def local_read_steps : List (HybridDataStructure → HybridDataStructure) :=
  [ fun s => { s with local_reads := s.local_reads + 1 } ]

/-- `local_read` with its `try/except` (`src/חדש.py`, lines 40–45) under
fault injection: on a fault-free run the `return` yields the shard dict's
value for the key; when a fault is caught, the `except` clause prints and the
function falls through, implicitly returning Python's `None` (the `none`
value), with the mutations made before the fault retained.  The outer second
component of `some e` would mean an exception propagated to the caller. -/
def local_read_catching (s : HybridDataStructure) (key : String)
    (fault : Option Nat) : (Option Int × HybridDataStructure) × Option String :=
  let r := tryBody local_read_steps fault s
  ((match r.2 with
    | none => dict_get (r.1.shard_of key) key
    | some _ => none, r.1), none)

/-! ## Basic lemmas about dicts and lists -/

theorem dict_get_dict_set_self (d : List (String × Int)) (k : String) (v : Int) :
    dict_get (dict_set d k v) k = some v := by
  induction d with
  | nil => simp [dict_get, dict_set]
  | cons p rest ih =>
      obtain ⟨k₁, v₁⟩ := p
      by_cases hk : k₁ = k <;> simp [dict_get, dict_set, hk, ih]

theorem dict_sum_dict_set_add (d : List (String × Int)) (k : String) (v : Int) :
    dict_sum (dict_set d k ((dict_get d k).getD 0 + v)) = dict_sum d + v := by
  induction d with
  | nil => simp [dict_get, dict_set, dict_sum]
  | cons p rest ih =>
      obtain ⟨k₁, v₁⟩ := p
      by_cases hk : k₁ = k
      · simp [dict_get, dict_set, hk, dict_sum]
        ring
      · simp only [dict_get, dict_set, hk, if_false, dict_sum, List.map_cons, List.sum_cons]
        have := ih
        simp only [dict_sum] at this
        rw [this]
        ring

theorem getD_set_self_of_lt {α : Type} (l : List α) (i : Nat) (x d : α)
    (h : i < l.length) : (l.set i x).getD i d = x := by
  rw [List.getD_eq_getElem _ _ (by simpa using h)]
  exact List.getElem_set_self _

theorem getD_replicate_self {α : Type} (n i : Nat) (a : α) :
    (List.replicate n a).getD i a = a := by
  rcases lt_or_ge i n with h | h
  · rw [List.getD_eq_getElem _ _ (by simpa using h)]
    simp
  · rw [List.getD_eq_default]
    simpa using h

theorem sum_map_set {α : Type} (f : α → Int) (l : List α) (i : Nat) (x d : α)
    (h : i < l.length) :
    ((l.set i x).map f).sum = (l.map f).sum - f (l.getD i d) + f x := by
  induction l generalizing i with
  | nil => simp at h
  | cons y rest ih =>
      cases i with
      | zero => simp [List.getD]; ring
      | succ j =>
          have hj : j < rest.length := by simpa using h
          simp only [List.set, List.map_cons, List.sum_cons, List.getD_cons_succ]
          rw [ih j hj]
          ring

/-! ## Field-level behaviour of the four operations -/

namespace HybridDataStructure

variable (s : HybridDataStructure) (k : String) (v incr : Int) (w w₁ w₂ : Nat)

@[simp] theorem local_write_num_shards : (s.local_write k v w).num_shards = s.num_shards := rfl

@[simp] theorem local_write_hashFn : (s.local_write k v w).hashFn = s.hashFn := rfl

@[simp] theorem local_write_global_counter :
    (s.local_write k v w).global_counter = s.global_counter := rfl

@[simp] theorem local_write_local_reads :
    (s.local_write k v w).local_reads = s.local_reads := rfl

@[simp] theorem local_write_local_writes :
    (s.local_write k v w).local_writes = s.local_writes + 1 := rfl

@[simp] theorem local_write_lock_wait_time :
    (s.local_write k v w).lock_wait_time = s.lock_wait_time + w := rfl

theorem local_write_write_conflicts :
    (s.local_write k v w).write_conflicts =
      if (dict_get (s.shard_of k) k).isSome then s.write_conflicts + 1
      else s.write_conflicts := rfl

theorem local_write_local_data :
    (s.local_write k v w).local_data =
      s.local_data.set (s.get_shard_index k)
        (dict_set (s.shard_of k) k ((dict_get (s.shard_of k) k).getD 0 + v)) := rfl

@[simp] theorem local_write_local_data_length :
    (s.local_write k v w).local_data.length = s.local_data.length := by
  rw [local_write_local_data]
  simp

@[simp] theorem local_read_fst : (s.local_read k).1 = dict_get (s.shard_of k) k := rfl

@[simp] theorem local_read_num_shards : (s.local_read k).2.num_shards = s.num_shards := rfl

@[simp] theorem local_read_hashFn : (s.local_read k).2.hashFn = s.hashFn := rfl

@[simp] theorem local_read_local_data : (s.local_read k).2.local_data = s.local_data := rfl

@[simp] theorem local_read_global_counter :
    (s.local_read k).2.global_counter = s.global_counter := rfl

@[simp] theorem local_read_local_reads :
    (s.local_read k).2.local_reads = s.local_reads + 1 := rfl

@[simp] theorem local_read_local_writes :
    (s.local_read k).2.local_writes = s.local_writes := rfl

@[simp] theorem local_read_lock_wait_time :
    (s.local_read k).2.lock_wait_time = s.lock_wait_time := rfl

@[simp] theorem local_read_write_conflicts :
    (s.local_read k).2.write_conflicts = s.write_conflicts := rfl

@[simp] theorem critical_update_num_shards :
    (s.critical_update incr w).num_shards = s.num_shards := rfl

@[simp] theorem critical_update_hashFn :
    (s.critical_update incr w).hashFn = s.hashFn := rfl

@[simp] theorem critical_update_local_data :
    (s.critical_update incr w).local_data = s.local_data := rfl

@[simp] theorem critical_update_global_counter :
    (s.critical_update incr w).global_counter = s.global_counter + incr := rfl

@[simp] theorem critical_update_local_reads :
    (s.critical_update incr w).local_reads = s.local_reads := rfl

@[simp] theorem critical_update_local_writes :
    (s.critical_update incr w).local_writes = s.local_writes := rfl

@[simp] theorem critical_update_lock_wait_time :
    (s.critical_update incr w).lock_wait_time = s.lock_wait_time + w := rfl

@[simp] theorem critical_update_write_conflicts :
    (s.critical_update incr w).write_conflicts = s.write_conflicts := rfl

@[simp] theorem get_shard_index_local_write (k₂ : String) :
    (s.local_write k v w).get_shard_index k₂ = s.get_shard_index k₂ := rfl

@[simp] theorem get_shard_index_local_read (k₂ : String) :
    ((s.local_read k).2).get_shard_index k₂ = s.get_shard_index k₂ := rfl

@[simp] theorem get_shard_index_critical_update (k₂ : String) :
    (s.critical_update incr w).get_shard_index k₂ = s.get_shard_index k₂ := rfl

theorem get_shard_index_lt (hn : 0 < s.num_shards) :
    s.get_shard_index k < s.num_shards := by
  unfold get_shard_index
  have h1 : (0 : Int) ≤ s.hashFn k % (s.num_shards : Int) :=
    Int.emod_nonneg _ (by exact_mod_cast hn.ne')
  have h2 : s.hashFn k % (s.num_shards : Int) < (s.num_shards : Int) :=
    Int.emod_lt_of_pos _ (by exact_mod_cast hn)
  omega

theorem shard_of_local_write_self
    (hb : s.get_shard_index k < s.local_data.length) :
    (s.local_write k v w).shard_of k =
      dict_set (s.shard_of k) k ((dict_get (s.shard_of k) k).getD 0 + v) := by
  show ((s.local_write k v w).local_data).getD ((s.local_write k v w).get_shard_index k) [] = _
  rw [get_shard_index_local_write, local_write_local_data]
  exact getD_set_self_of_lt _ _ _ _ hb

@[simp] theorem init_num_shards (n : Nat) (h : String → Int) :
    (init n h).num_shards = n := rfl

@[simp] theorem init_global_counter (n : Nat) (h : String → Int) :
    (init n h).global_counter = 0 := rfl

@[simp] theorem init_local_reads (n : Nat) (h : String → Int) :
    (init n h).local_reads = 0 := rfl

@[simp] theorem init_local_writes (n : Nat) (h : String → Int) :
    (init n h).local_writes = 0 := rfl

@[simp] theorem init_lock_wait_time (n : Nat) (h : String → Int) :
    (init n h).lock_wait_time = 0 := rfl

@[simp] theorem init_write_conflicts (n : Nat) (h : String → Int) :
    (init n h).write_conflicts = 0 := rfl

@[simp] theorem init_local_data_length (n : Nat) (h : String → Int) :
    (init n h).local_data.length = n := by
  show (List.replicate n []).length = n
  simp

@[simp] theorem init_shard_of (n : Nat) (h : String → Int) :
    (init n h).shard_of k = [] := by
  show (List.replicate n []).getD _ [] = []
  exact getD_replicate_self _ _ _

@[simp] theorem total_local_sum_init (n : Nat) (h : String → Int) :
    (init n h).total_local_sum = 0 := by
  show ((List.replicate n ([] : List (String × Int))).map dict_sum).sum = 0
  rw [List.map_replicate]
  simp [dict_sum]

@[simp] theorem consistency_gap_init (n : Nat) (h : String → Int) :
    (init n h).consistency_gap = 0 := by
  unfold consistency_gap
  rw [total_local_sum_init, init_global_counter]
  ring

theorem total_local_sum_local_write
    (hb : s.get_shard_index k < s.local_data.length) :
    (s.local_write k v w).total_local_sum = s.total_local_sum + v := by
  show (((s.local_write k v w).local_data).map dict_sum).sum = _
  rw [local_write_local_data,
    sum_map_set dict_sum s.local_data (s.get_shard_index k) _ [] hb,
    dict_sum_dict_set_add]
  show _ = (s.local_data.map dict_sum).sum + v
  unfold shard_of
  ring

theorem consistency_gap_local_write
    (hb : s.get_shard_index k < s.local_data.length) :
    (s.local_write k v w).consistency_gap = s.consistency_gap - v := by
  unfold consistency_gap
  rw [total_local_sum_local_write s k v w hb, local_write_global_counter]
  ring

theorem consistency_gap_local_read :
    ((s.local_read k).2).consistency_gap = s.consistency_gap := rfl

theorem consistency_gap_critical_update :
    (s.critical_update incr w).consistency_gap = s.consistency_gap + incr := by
  unfold consistency_gap
  show s.global_counter + incr - (s.local_data.map dict_sum).sum = _
  unfold total_local_sum
  ring

theorem consistency_gap_hybrid_operation
    (hb : s.get_shard_index k < s.local_data.length) :
    (s.hybrid_operation k v w₁ w₂).consistency_gap = s.consistency_gap := by
  unfold hybrid_operation
  rw [consistency_gap_critical_update, consistency_gap_local_write s k v w₁ hb]
  ring

end HybridDataStructure

/-! ## Behaviour of workload steps -/

open HybridDataStructure

theorem Op.criticalSum_cons (op : Op) (rest : List Op) :
    Op.criticalSum (op :: rest) = op.criticalOf + Op.criticalSum rest := by
  cases op <;> simp [Op.criticalSum, Op.criticalOf]

theorem Op.exec_nil (s : HybridDataStructure) : Op.exec s [] = s := rfl

theorem Op.exec_cons (s : HybridDataStructure) (op : Op) (rest : List Op) :
    Op.exec s (op :: rest) = Op.exec (Op.step s op) rest := rfl

@[simp] theorem Op.step_num_shards (s : HybridDataStructure) (op : Op) :
    (Op.step s op).num_shards = s.num_shards := by
  cases op <;> rfl

@[simp] theorem Op.step_hashFn (s : HybridDataStructure) (op : Op) :
    (Op.step s op).hashFn = s.hashFn := by
  cases op <;> rfl

@[simp] theorem Op.step_local_data_length (s : HybridDataStructure) (op : Op) :
    (Op.step s op).local_data.length = s.local_data.length := by
  cases op <;> simp [Op.step, HybridDataStructure.hybrid_operation]

theorem Op.exec_num_shards (ops : List Op) :
    ∀ s : HybridDataStructure, (Op.exec s ops).num_shards = s.num_shards := by
  induction ops with
  | nil => intro s; rfl
  | cons op rest ih =>
      intro s
      rw [Op.exec_cons, ih (Op.step s op), Op.step_num_shards]

theorem Op.exec_hashFn (ops : List Op) :
    ∀ s : HybridDataStructure, (Op.exec s ops).hashFn = s.hashFn := by
  induction ops with
  | nil => intro s; rfl
  | cons op rest ih =>
      intro s
      rw [Op.exec_cons, ih (Op.step s op), Op.step_hashFn]

theorem Op.exec_local_data_length (ops : List Op) :
    ∀ s : HybridDataStructure, (Op.exec s ops).local_data.length = s.local_data.length := by
  induction ops with
  | nil => intro s; rfl
  | cons op rest ih =>
      intro s
      rw [Op.exec_cons, ih (Op.step s op), Op.step_local_data_length]

theorem Op.step_write_conflicts (s : HybridDataStructure) (op : Op) :
    (Op.step s op).write_conflicts = s.write_conflicts + Op.conflictOf s op := by
  cases op with
  | write k v w =>
      simp only [Op.step, Op.conflictOf, HybridDataStructure.local_write_write_conflicts]
      split <;> simp
  | read k => simp [Op.step, Op.conflictOf]
  | critical i w => simp [Op.step, Op.conflictOf]
  | hybrid k v w₁ w₂ =>
      simp only [Op.step, Op.conflictOf, HybridDataStructure.hybrid_operation,
        HybridDataStructure.critical_update_write_conflicts,
        HybridDataStructure.local_write_write_conflicts]
      split <;> simp

theorem Op.exec_write_conflicts (ops : List Op) :
    ∀ s : HybridDataStructure,
      (Op.exec s ops).write_conflicts = s.write_conflicts + Op.conflictCount s ops := by
  induction ops with
  | nil => intro s; simp [Op.exec_nil, Op.conflictCount]
  | cons op rest ih =>
      intro s
      rw [Op.exec_cons, ih (Op.step s op), Op.step_write_conflicts]
      simp [Op.conflictCount]
      omega

theorem Op.step_gap (s : HybridDataStructure) (op : Op)
    (hlen : s.local_data.length = s.num_shards) (hn : 0 < s.num_shards)
    (hop : op.isHybridOrCritical = true) :
    (Op.step s op).consistency_gap = s.consistency_gap + op.criticalOf := by
  cases op with
  | write k v w => simp [Op.isHybridOrCritical] at hop
  | read k => simp [Op.isHybridOrCritical] at hop
  | critical i w =>
      simp [Op.step, Op.criticalOf, HybridDataStructure.consistency_gap_critical_update]
  | hybrid k v w₁ w₂ =>
      have hb : s.get_shard_index k < s.local_data.length := by
        rw [hlen]
        exact s.get_shard_index_lt k hn
      simp [Op.step, Op.criticalOf,
        HybridDataStructure.consistency_gap_hybrid_operation s k v w₁ w₂ hb]

theorem Op.exec_gap (ops : List Op) :
    ∀ s : HybridDataStructure, s.local_data.length = s.num_shards → 0 < s.num_shards →
      ops.all Op.isHybridOrCritical = true →
      (Op.exec s ops).consistency_gap = s.consistency_gap + Op.criticalSum ops := by
  induction ops with
  | nil => intro s _ _ _; simp [Op.exec_nil, Op.criticalSum]
  | cons op rest ih =>
      intro s hlen hn hall
      rw [List.all_cons, Bool.and_eq_true] at hall
      have hlen₂ : (Op.step s op).local_data.length = (Op.step s op).num_shards := by
        rw [Op.step_local_data_length, Op.step_num_shards, hlen]
      have hn₂ : 0 < (Op.step s op).num_shards := by
        rw [Op.step_num_shards]
        exact hn
      rw [Op.exec_cons, ih (Op.step s op) hlen₂ hn₂ hall.2,
        Op.step_gap s op hlen hn hall.1, Op.criticalSum_cons]
      ring

theorem writeAll_nil (s : HybridDataStructure) (k : String) : writeAll s k [] = s := rfl

theorem writeAll_cons (s : HybridDataStructure) (k : String) (p : Int × Nat)
    (rest : List (Int × Nat)) :
    writeAll s k (p :: rest) = writeAll (s.local_write k p.1 p.2) k rest := rfl

theorem writeAll_dict_get (k : String) (vs : List (Int × Nat)) :
    ∀ (s : HybridDataStructure) (a : Int),
      s.local_data.length = s.num_shards → 0 < s.num_shards →
      dict_get (s.shard_of k) k = some a →
      dict_get ((writeAll s k vs).shard_of k) k = some (a + (vs.map Prod.fst).sum) := by
  induction vs with
  | nil =>
      intro s a _ _ ha
      simpa [writeAll_nil] using ha
  | cons p rest ih =>
      intro s a hlen hn ha
      have hb : s.get_shard_index k < s.local_data.length := by
        rw [hlen]
        exact s.get_shard_index_lt k hn
      have hshard := s.shard_of_local_write_self k p.1 p.2 hb
      have hget : dict_get ((s.local_write k p.1 p.2).shard_of k) k = some (a + p.1) := by
        rw [hshard, ha]
        simpa using dict_get_dict_set_self (s.shard_of k) k ((some a).getD 0 + p.1)
      have hlen₂ : (s.local_write k p.1 p.2).local_data.length =
          (s.local_write k p.1 p.2).num_shards := by
        simpa using hlen
      have hn₂ : 0 < (s.local_write k p.1 p.2).num_shards := by
        simpa using hn
      rw [writeAll_cons, ih (s.local_write k p.1 p.2) (a + p.1) hlen₂ hn₂ hget]
      congr 1
      simp
      ring

/-! ## The critical sections as sequences of sub-steps -/

theorem runSteps_local_write_steps (s : HybridDataStructure) (k : String)
    (v : Int) (w : Nat) :
    runSteps (local_write_steps k v w) s = s.local_write k v w := by
  cases s
  dsimp [runSteps, local_write_steps, HybridDataStructure.local_write,
    HybridDataStructure.shard_of, HybridDataStructure.get_shard_index]
  split <;> rfl

theorem runSteps_critical_update_steps (s : HybridDataStructure) (incr : Int)
    (w : Nat) :
    runSteps (critical_update_steps incr w) s = s.critical_update incr w := rfl

theorem tryBody_some (steps : List (HybridDataStructure → HybridDataStructure))
    (f : Nat) (s : HybridDataStructure) (hf : f < steps.length) :
    tryBody steps (some f) s = (runSteps (steps.take f) s, some "exception") := by
  rw [tryBody, if_pos hf]

/-! ## The claims -/

/-- **C1, counterexample.**  The claim quantifies over every sequence of
`hybridOperation(k, v)` and `criticalUpdate(v)` calls in which every hybrid
value is passed nowhere else, and asserts the final consistency gap is zero.
The single-element workload `[criticalUpdate(7)]` contains no hybrid
operation, so every condition on hybrid values holds vacuously, yet after it
completes `global_counter = 7` while every shard is empty: the gap is `7`,
not `0`.  A standalone `critical_update` adds to the global counter without a
matching shard write (`src/חדש.py`, lines 47–59). -/
theorem c1_counterexample :
    [Op.critical 7 0].all Op.isHybridOrCritical = true ∧
    (Op.exec (HybridDataStructure.init 4 h0) [Op.critical 7 0]).consistency_gap = 7 ∧
    (Op.exec (HybridDataStructure.init 4 h0) [Op.critical 7 0]).consistency_gap ≠ 0 := by
  have hgap : (Op.exec (HybridDataStructure.init 4 h0) [Op.critical 7 0]).consistency_gap = 7 := by
    rw [Op.exec_cons, Op.exec_nil]
    show ((HybridDataStructure.init 4 h0).critical_update 7 0).consistency_gap = 7
    rw [HybridDataStructure.consistency_gap_critical_update,
      HybridDataStructure.consistency_gap_init]
    ring
  refine ⟨rfl, hgap, ?_⟩
  rw [hgap]
  norm_num

/-- **C1, amended.**  For every workload consisting only of
`hybrid_operation` and `critical_update` calls, executed to completion on a
fresh store with at least one shard, the final consistency gap
(`global_counter` minus the sum of all shard accumulators) equals the sum of
the increments of the standalone `critical_update` calls.  In particular it
is zero exactly when that sum is zero — e.g. for workloads made of
`hybrid_operation` calls only — since each `hybrid_operation` adds its value
both to a shard accumulator and to the global counter. -/
theorem c1_gap_eq_critical_sum (n : Nat) (h : String → Int) (ops : List Op)
    (hn : 0 < n) (hall : ops.all Op.isHybridOrCritical = true) :
    (Op.exec (HybridDataStructure.init n h) ops).consistency_gap = Op.criticalSum ops := by
  rw [Op.exec_gap ops (HybridDataStructure.init n h) (by simp) (by simpa using hn) hall,
    HybridDataStructure.consistency_gap_init]
  ring

/-- Witness for C1: the workload `[hybridOperation("a", 3); criticalUpdate(2)]`
on a fresh 4-shard store ends with gap `2`, the sum of standalone critical
increments. -/
theorem c1_gap_eq_critical_sum_witness :
    0 < 4 ∧
    [Op.hybrid "a" 3 0 0, Op.critical 2 1].all Op.isHybridOrCritical = true ∧
    (Op.exec (HybridDataStructure.init 4 h0)
        [Op.hybrid "a" 3 0 0, Op.critical 2 1]).consistency_gap =
      Op.criticalSum [Op.hybrid "a" 3 0 0, Op.critical 2 1] :=
  ⟨by decide, by rfl,
    c1_gap_eq_critical_sum 4 h0 [Op.hybrid "a" 3 0 0, Op.critical 2 1]
      (by decide) (by rfl)⟩

/-- **C2.**  Writing values `v₁ … vₙ` (n ≥ 1) to one key `k` on a fresh store
with at least one shard leaves `k`'s accumulator in `k`'s shard equal to
`v₁ + … + vₙ`: the first write inserts the value (the dict was empty), every
later write adds to the existing value via
`local_data[shard][key] = local_data[shard].get(key, 0) + value`, never
overwriting it. -/
theorem c2_accumulate_sum (n : Nat) (h : String → Int) (k : String)
    (vs : List (Int × Nat)) (hn : 0 < n) (hvs : vs ≠ []) :
    dict_get ((writeAll (HybridDataStructure.init n h) k vs).shard_of k) k =
      some ((vs.map Prod.fst).sum) := by
  cases vs with
  | nil => exact absurd rfl hvs
  | cons p rest =>
      have hb : (HybridDataStructure.init n h).get_shard_index k <
          (HybridDataStructure.init n h).local_data.length := by
        rw [HybridDataStructure.init_local_data_length]
        exact (HybridDataStructure.init n h).get_shard_index_lt k (by simpa using hn)
      have h₁ : dict_get (((HybridDataStructure.init n h).local_write k p.1 p.2).shard_of k) k =
          some p.1 := by
        rw [HybridDataStructure.shard_of_local_write_self _ _ _ _ hb,
          HybridDataStructure.init_shard_of, dict_get_dict_set_self]
        simp [dict_get]
      rw [writeAll_cons,
        writeAll_dict_get k rest ((HybridDataStructure.init n h).local_write k p.1 p.2) p.1
          (by simp) (by simpa using hn) h₁]
      simp

/-- Witness for C2: writing 10 then 5 to `"a"` on a fresh 4-shard store
leaves the accumulator at 15. -/
theorem c2_accumulate_sum_witness :
    dict_get ((writeAll (HybridDataStructure.init 4 h0) "a" [(10, 0), (5, 0)]).shard_of "a") "a" =
      some 15 := by
  have h := c2_accumulate_sum 4 h0 "a" [(10, 0), (5, 0)] (by decide) (by decide)
  norm_num at h
  exact h

/-- **C3.**  After any workload from any starting state, `write_conflicts`
has grown by exactly the number of write events (standalone `local_write`
calls and the writes inside `hybrid_operation` calls) whose key already
existed in its shard at the moment of the call; and on a fresh 4-shard store,
writing the same key three times (any values, any hash) yields
`write_conflicts = 2`. -/
theorem c3_write_conflicts_count :
    (∀ (s : HybridDataStructure) (ops : List Op),
        (Op.exec s ops).write_conflicts = s.write_conflicts + Op.conflictCount s ops) ∧
    (∀ (h : String → Int) (v₁ v₂ v₃ : Int) (w₁ w₂ w₃ : Nat),
        (Op.exec (HybridDataStructure.init 4 h)
            [Op.write "a" v₁ w₁, Op.write "a" v₂ w₂, Op.write "a" v₃ w₃]).write_conflicts = 2) := by
  constructor
  · intro s ops
    exact Op.exec_write_conflicts ops s
  · intro h v₁ v₂ v₃ w₁ w₂ w₃
    have hb₀ : (HybridDataStructure.init 4 h).get_shard_index "a" <
        (HybridDataStructure.init 4 h).local_data.length := by
      rw [HybridDataStructure.init_local_data_length]
      exact (HybridDataStructure.init 4 h).get_shard_index_lt "a" (by norm_num)
    have h₁ : ((HybridDataStructure.init 4 h).local_write "a" v₁ w₁).shard_of "a" =
        dict_set [] "a" ((dict_get [] "a").getD 0 + v₁) := by
      rw [HybridDataStructure.shard_of_local_write_self _ _ _ _ hb₀,
        HybridDataStructure.init_shard_of]
    have hb₁ : ((HybridDataStructure.init 4 h).local_write "a" v₁ w₁).get_shard_index "a" <
        ((HybridDataStructure.init 4 h).local_write "a" v₁ w₁).local_data.length := by
      simpa using hb₀
    have h₂ : (((HybridDataStructure.init 4 h).local_write "a" v₁ w₁).local_write "a" v₂ w₂).shard_of "a" =
        dict_set (dict_set [] "a" ((dict_get [] "a").getD 0 + v₁)) "a"
          ((dict_get (dict_set [] "a" ((dict_get [] "a").getD 0 + v₁)) "a").getD 0 + v₂) := by
      rw [HybridDataStructure.shard_of_local_write_self _ _ _ _ hb₁, h₁]
    show ((((HybridDataStructure.init 4 h).local_write "a" v₁ w₁).local_write "a" v₂ w₂).local_write
        "a" v₃ w₃).write_conflicts = 2
    rw [HybridDataStructure.local_write_write_conflicts,
      HybridDataStructure.local_write_write_conflicts,
      HybridDataStructure.local_write_write_conflicts,
      HybridDataStructure.init_shard_of, h₁, h₂, dict_get_dict_set_self]
    simp [dict_get, dict_get_dict_set_self]

/-- **C4.**  On a fresh store with 4 shards, `local_write("a", 10)`,
`local_write("a", 5)`, then `local_read("a")` run sequentially: the read
returns `15`, and afterwards `write_conflicts = 1`, `local_writes = 2` and
`local_reads = 1` — for every hash function and every measured lock wait. -/
theorem c4_example_scenario (h : String → Int) (w₁ w₂ : Nat) :
    ((((HybridDataStructure.init 4 h).local_write "a" 10 w₁).local_write "a" 5 w₂).local_read
        "a").1 = some 15 ∧
    ((((HybridDataStructure.init 4 h).local_write "a" 10 w₁).local_write "a" 5 w₂).local_read
        "a").2.write_conflicts = 1 ∧
    ((((HybridDataStructure.init 4 h).local_write "a" 10 w₁).local_write "a" 5 w₂).local_read
        "a").2.local_writes = 2 ∧
    ((((HybridDataStructure.init 4 h).local_write "a" 10 w₁).local_write "a" 5 w₂).local_read
        "a").2.local_reads = 1 := by
  have hb₀ : (HybridDataStructure.init 4 h).get_shard_index "a" <
      (HybridDataStructure.init 4 h).local_data.length := by
    rw [HybridDataStructure.init_local_data_length]
    exact (HybridDataStructure.init 4 h).get_shard_index_lt "a" (by norm_num)
  have h₁ : ((HybridDataStructure.init 4 h).local_write "a" 10 w₁).shard_of "a" = [("a", 10)] := by
    rw [HybridDataStructure.shard_of_local_write_self _ _ _ _ hb₀,
      HybridDataStructure.init_shard_of]
    norm_num [dict_get, dict_set]
  have hb₁ : ((HybridDataStructure.init 4 h).local_write "a" 10 w₁).get_shard_index "a" <
      ((HybridDataStructure.init 4 h).local_write "a" 10 w₁).local_data.length := by
    simpa using hb₀
  have h₂ : (((HybridDataStructure.init 4 h).local_write "a" 10 w₁).local_write "a" 5
      w₂).shard_of "a" = [("a", 15)] := by
    rw [HybridDataStructure.shard_of_local_write_self _ _ _ _ hb₁, h₁]
    norm_num [dict_get, dict_set]
  refine ⟨?_, ?_, ?_, ?_⟩
  · rw [HybridDataStructure.local_read_fst, h₂]
    simp [dict_get]
  · rw [HybridDataStructure.local_read_write_conflicts,
      HybridDataStructure.local_write_write_conflicts, h₁,
      HybridDataStructure.local_write_write_conflicts,
      HybridDataStructure.init_shard_of]
    simp [dict_get]
  · simp
  · simp

/-- **C5.**  Shard assignment is a deterministic pure function of the key,
stable for the store's lifetime: after any workload, `_get_shard_index`
returns for every key exactly what it returned on the initial store, because
no operation changes `num_shards` or the ambient hash function. -/
theorem c5_shard_index_stable (s : HybridDataStructure) (ops : List Op) (k : String) :
    (Op.exec s ops).get_shard_index k = s.get_shard_index k := by
  unfold HybridDataStructure.get_shard_index
  rw [Op.exec_hashFn, Op.exec_num_shards]

/-- **C6.**  `hybrid_operation(key, value)` is exactly the sequential
composition described by the spec: a `local_write(key, value)` followed by a
`critical_update(value)`, each its own critical section — the resulting
states agree on every field (`hybridOperation_spec` is the spec-side
description, `hybrid_operation` the source's). -/
theorem c6_hybrid_refines_seq (s : HybridDataStructure) (k : String) (v : Int)
    (w₁ w₂ : Nat) :
    s.hybrid_operation k v w₁ w₂ = hybridOperation_spec s k v w₁ w₂ := rfl

/-- **C7.**  `local_read(k)` increments the reads counter, returns the
current accumulator for `k` when `k` is present in its shard, and returns the
explicit absent result `none` (Python's `None`) otherwise — which is
distinguishable from `some v` for every integer `v`, i.e. never a sentinel
that could be a stored accumulator value. -/
theorem c7_local_read_spec (s : HybridDataStructure) (k : String) :
    (s.local_read k).2.local_reads = s.local_reads + 1 ∧
    (∀ v : Int, dict_get (s.shard_of k) k = some v → (s.local_read k).1 = some v) ∧
    (dict_get (s.shard_of k) k = none → (s.local_read k).1 = none) ∧
    (∀ v : Int, (none : Option Int) ≠ some v) := by
  refine ⟨rfl, ?_, ?_, ?_⟩
  · intro v hv
    rw [HybridDataStructure.local_read_fst, hv]
  · intro hv
    rw [HybridDataStructure.local_read_fst, hv]
  · intro v hv
    exact Option.noConfusion hv

/-- Witness for C7: on a fresh store, reading the absent key `"a"` returns
`none`. -/
theorem c7_local_read_spec_witness :
    ((HybridDataStructure.init 4 h0).local_read "a").1 = none :=
  (c7_local_read_spec (HybridDataStructure.init 4 h0) "a").2.2.1
    (by rw [HybridDataStructure.init_shard_of]; rfl)

/-- **C8.**  `critical_update(increment)` adds exactly `increment` to
`global_counter` and the measured wait to `lock_wait_time`, while leaving
every shard's map (`local_data`) and the `local_reads`, `local_writes` and
`write_conflicts` counters unchanged. -/
theorem c8_critical_update_frame (s : HybridDataStructure) (incr : Int) (w : Nat) :
    (s.critical_update incr w).global_counter = s.global_counter + incr ∧
    (s.critical_update incr w).lock_wait_time = s.lock_wait_time + w ∧
    (s.critical_update incr w).local_data = s.local_data ∧
    (s.critical_update incr w).local_reads = s.local_reads ∧
    (s.critical_update incr w).local_writes = s.local_writes ∧
    (s.critical_update incr w).write_conflicts = s.write_conflicts :=
  ⟨rfl, rfl, rfl, rfl, rfl, rfl⟩

/-- **C9, counterexample.**  A fault injected in `local_write`'s critical
section after the conflict check but before the dict update (fault point 2)
is caught by the `except` clause (no exception propagates: second component
`none`), but it leaves the counters *partially* updated: starting from a
store holding `"a" ↦ 10`, the faulted write of `5` to `"a"` ends with
`write_conflicts = 1` yet `local_writes = 1` — neither the pre-state
(`write_conflicts = 0`) nor the completed write (`local_writes = 2`).  The
source catches and continues but performs no rollback, so "either the whole
operation's updates applied or none of them" fails. -/
theorem c9_counterexample :
    (local_write_catching ((HybridDataStructure.init 4 h0).local_write "a" 10 0) "a" 5 0
        (some 2)).2 = none ∧
    (local_write_catching ((HybridDataStructure.init 4 h0).local_write "a" 10 0) "a" 5 0
        (some 2)).1.write_conflicts = 1 ∧
    (local_write_catching ((HybridDataStructure.init 4 h0).local_write "a" 10 0) "a" 5 0
        (some 2)).1.local_writes = 1 ∧
    ((HybridDataStructure.init 4 h0).local_write "a" 10 0).write_conflicts = 0 ∧
    (((HybridDataStructure.init 4 h0).local_write "a" 10 0).local_write "a" 5 0).write_conflicts
      = 1 ∧
    (((HybridDataStructure.init 4 h0).local_write "a" 10 0).local_write "a" 5 0).local_writes
      = 2 := by
  decide

/-- **C9, amended.**  If a fault occurs inside the critical section of
`local_write`, `local_read`, or `critical_update`, the operation never
propagates an exception to the caller and never leaves a mutex held: the
`with` block has already released the mutex and the `except Exception` clause
catches and reports the fault, so the surrounding run always completes (a
faulted `local_read` returns the absent result `None`).  But the operations
are not all-or-nothing: the sub-steps executed before the fault persist
(there is no rollback), so counters can be left partially updated.  A
fault-free run performs the full operation. -/
theorem c9_fault_containment (s : HybridDataStructure) (k : String) (v : Int) (w : Nat) :
    (∀ fault : Option Nat, (local_write_catching s k v w fault).2 = none) ∧
    (local_write_catching s k v w none).1 = s.local_write k v w ∧
    (∀ f : Nat, f < (local_write_steps k v w).length →
        (local_write_catching s k v w (some f)).1 =
          runSteps ((local_write_steps k v w).take f) s) ∧
    (∀ fault : Option Nat, (local_read_catching s k fault).2 = none) ∧
    (local_read_catching s k none).1 = s.local_read k ∧
    (∀ f : Nat, f < local_read_steps.length →
        (local_read_catching s k (some f)).1 =
          (none, runSteps (local_read_steps.take f) s)) ∧
    (∀ (incr : Int) (w₂ : Nat) (fault : Option Nat),
        (critical_update_catching s incr w₂ fault).2 = none) ∧
    (∀ (incr : Int) (w₂ : Nat),
        (critical_update_catching s incr w₂ none).1 = s.critical_update incr w₂) ∧
    (∀ (incr : Int) (w₂ : Nat) (f : Nat), f < (critical_update_steps incr w₂).length →
        (critical_update_catching s incr w₂ (some f)).1 =
          runSteps ((critical_update_steps incr w₂).take f) s) := by
  refine ⟨fun _ => rfl, ?_, ?_, fun _ => rfl, rfl, ?_, fun _ _ _ => rfl, ?_, ?_⟩
  · show (tryBody (local_write_steps k v w) none s).1 = s.local_write k v w
    show runSteps (local_write_steps k v w) s = s.local_write k v w
    exact runSteps_local_write_steps s k v w
  · intro f hf
    show (tryBody (local_write_steps k v w) (some f) s).1 = _
    rw [tryBody_some _ _ _ hf]
  · intro f hf
    simp only [local_read_catching]
    rw [tryBody_some _ _ _ hf]
  · intro incr w₂
    show runSteps (critical_update_steps incr w₂) s = s.critical_update incr w₂
    exact runSteps_critical_update_steps s incr w₂
  · intro incr w₂ f hf
    show (tryBody (critical_update_steps incr w₂) (some f) s).1 = _
    rw [tryBody_some _ _ _ hf]

/-- Witness for C9: on a concrete store, a fault at point 2 of a write is
caught and the state equals the two-step partial run, and a fault before the
reads increment of a read is caught, returning `none` with the state of the
empty partial run. -/
theorem c9_fault_containment_witness :
    (local_write_catching (HybridDataStructure.init 4 h0) "a" 5 0 (some 2)).1 =
      runSteps ((local_write_steps "a" 5 0).take 2) (HybridDataStructure.init 4 h0) ∧
    (local_read_catching (HybridDataStructure.init 4 h0) "a" (some 0)).1 =
      (none, runSteps (local_read_steps.take 0) (HybridDataStructure.init 4 h0)) :=
  ⟨(c9_fault_containment (HybridDataStructure.init 4 h0) "a" 5 0).2.2.1 2 (by decide),
   (c9_fault_containment (HybridDataStructure.init 4 h0) "a" 5 0).2.2.2.2.2.1 0 (by decide)⟩

/-- **C10.**  For every store built with `n ≥ 1` shards and every key,
`_get_shard_index` returns an index smaller than the length of `local_data`
at any point of any workload, so `local_write` and `local_read` always index
`local_locks` and `local_data` in bounds — including when the hash is
negative, since Python's `%` with a positive modulus (Lean's `Int.emod`)
yields a value in `[0, n)`. -/
theorem c10_shard_index_in_bounds (n : Nat) (h : String → Int) (ops : List Op)
    (k : String) (hn : 0 < n) :
    (Op.exec (HybridDataStructure.init n h) ops).get_shard_index k <
      (Op.exec (HybridDataStructure.init n h) ops).local_data.length := by
  rw [Op.exec_local_data_length, HybridDataStructure.init_local_data_length]
  have hlt : (Op.exec (HybridDataStructure.init n h) ops).get_shard_index k <
      (Op.exec (HybridDataStructure.init n h) ops).num_shards :=
    (Op.exec (HybridDataStructure.init n h) ops).get_shard_index_lt k
      (by rw [Op.exec_num_shards, HybridDataStructure.init_num_shards]; exact hn)
  rwa [Op.exec_num_shards, HybridDataStructure.init_num_shards] at hlt

/-- Witness for C10: with the constantly `-3` hash (a negative Python hash)
on a fresh 4-shard store, the shard index is still in bounds. -/
theorem c10_shard_index_in_bounds_witness :
    0 < 4 ∧
    (Op.exec (HybridDataStructure.init 4 hneg) []).get_shard_index "a" <
      (Op.exec (HybridDataStructure.init 4 hneg) []).local_data.length :=
  ⟨by decide, c10_shard_index_in_bounds 4 hneg [] "a" (by decide)⟩
